import Mathlib

/-!
# Verification of `src/context-menu.js`

A shallow embedding of the `ctxMenus` module: the module-level state
(`activeMenus`, `submenuTimer`, `rootMenu`), the DOM elements it creates
(menus, rows, dividers) together with their expando data (`__ctxMenu`,
`__ctxMenuItem`), and the operations `createContextMenu`, `removeAll`,
`recursivelyCloseChildren`, `spawnSubmenu`, the `mousedown` handler, the
per-row `onClick` / hover handlers, `calculateOverflow` and `render`.

Geometry (`getBoundingClientRect`, `window.innerWidth`/`innerHeight`) is an
external oracle, passed in as parameters, exactly as the spec's "Geometry
Oracle" collaborator.  JavaScript elements are modelled as a store of
numbered element records; `setTimeout` handles are modelled as a timer
record with a `canceled` flag (`clearTimeout` sets the flag, it does not
null the `submenuTimer` variable — faithful to the source).
-/

namespace CtxMenus

/-- A JavaScript value as it can appear in the `parent` parameter of
`createContextMenu`: `null` (the default), a number (the buggy
`spawnSubmenu` call site passes the coordinate `y` in this position), or an
element reference. -/
inductive JVal where
  | null
  | num (n : Int)
  | elemRef (i : Nat)
deriving DecidableEq

/-- A value stored in an element's `style` object: a string (normal CSS
assignment), a raw number (the source assigns `calculatedTop`/`calculatedLeft`
without units in `render`), or a whole object (the source assigns the
per-part override *objects* in `tryApplyUserStyles`). -/
inductive StyleVal where
  | str (v : String)
  | num (n : Int)
  | objv (entries : List (String × String))
deriving DecidableEq

mutual
/-- One entry of the user-supplied `menuObject` array:
`{ text, click, enabled, divider }`, each key optional. -/
inductive MenuItemObj where
  | mk (text : Option String) (click : Option ClickVal) (enabled : Option Bool)
      (divider : Option Bool)

/-- The `click` key of a menu entry: either a function (identified by a
number, since callbacks are caller-owned and opaque) or a nested
`menuObject` array describing a submenu. -/
inductive ClickVal where
  | fn (fnId : Nat)
  | subm (menuObject : List MenuItemObj)
end

def MenuItemObj.text : MenuItemObj → Option String
  | .mk t _ _ _ => t

def MenuItemObj.click : MenuItemObj → Option ClickVal
  | .mk _ c _ _ => c

def MenuItemObj.enabled : MenuItemObj → Option Bool
  | .mk _ _ e _ => e

def MenuItemObj.divider : MenuItemObj → Option Bool
  | .mk _ _ _ d => d

/-- The `__ctxMenu` expando stored on every menu `div` (source lines 82-89). -/
structure CtxMenuData where
  activeSubmenu : Option Nat
  parentCtxMenuItem : JVal
  menuObject : List MenuItemObj

/-- The `__ctxMenuItem` expando stored on every row `div` (source lines 183-189). -/
structure CtxMenuItemData where
  parentCtxMenu : Nat
  clickObject : Option ClickVal
  text : Option String
  enabled : Option Bool
  divider : Option Bool

/-- A DOM element: tag, text content, inline style, class list, children,
and the DOM parent (`none` when detached from any parent). -/
structure Elem where
  tag : String
  textContent : String
  style : List (String × StyleVal)
  classes : List String
  children : List Nat
  domParent : Option Nat
  ctxMenuData : Option CtxMenuData
  ctxMenuItemData : Option CtxMenuItemData

/-- A `setTimeout` handle for the hover-open task: `clearTimeout` marks it
canceled; the `submenuTimer` variable keeps holding the stale handle because
`resetHoverTimer` never nulls it (source line 267). -/
structure Timer where
  itemId : Nat
  canceled : Bool
deriving DecidableEq

/-- The module-level state of `ctxMenus` (source lines 12-15) together with
the element store and a fresh-id counter.  Element `0` is `document.body`. -/
structure St where
  elems : List (Nat × Elem)
  nextId : Nat
  activeMenus : List Nat
  submenuTimer : Option Timer
  rootMenu : Option Nat

def bodyId : Nat := 0

def bodyElem : Elem :=
  { tag := "body", textContent := "", style := [], classes := [], children := [],
    domParent := none, ctxMenuData := none, ctxMenuItemData := none }

/-- The state right after the module IIFE runs: empty registry, no timer,
no root (source lines 13-15), and a DOM containing only `document.body`. -/
def initState : St :=
  { elems := [(bodyId, bodyElem)], nextId := 1, activeMenus := [],
    submenuTimer := none, rootMenu := none }

/-! ## Element-store helpers -/

def findElem (s : St) (i : Nat) : Option Elem :=
  (s.elems.find? (fun p => p.1 == i)).map (fun p => p.2)

def setElem (s : St) (i : Nat) (e : Elem) : St :=
  { s with elems := s.elems.map (fun p => if p.1 == i then (i, e) else p) }

def updElem (s : St) (i : Nat) (f : Elem → Elem) : St :=
  match findElem s i with
  | some e => setElem s i (f e)
  | none => s

/-- A fresh element as produced by `document.createElement(tag)`. -/
def emptyElem (tag : String) : Elem :=
  { tag := tag, textContent := "", style := [], classes := [], children := [],
    domParent := none, ctxMenuData := none, ctxMenuItemData := none }

/-- `document.createElement(tag)`: a fresh, detached element. -/
def createElement (s : St) (tag : String) : St × Nat :=
  let i := s.nextId
  ({ s with elems := s.elems ++ [(i, emptyElem tag)], nextId := i + 1 }, i)

/-- Assigning `el.style[key] = v`: replaces any previous value for `key`. -/
def setStyle (e : Elem) (key : String) (v : StyleVal) : Elem :=
  { e with style := e.style.filter (fun p => p.1 != key) ++ [(key, v)] }

def styleLookup (e : Elem) (key : String) : Option StyleVal :=
  (e.style.find? (fun p => p.1 == key)).map (fun p => p.2)

def addClass (e : Elem) (c : String) : Elem :=
  { e with classes := e.classes ++ [c] }

/-- `parent.appendChild(child)`: detaches `child` from its old parent (the
DOM moves a node on append) and adds it as the last child of `parent`. -/
def appendChild (s : St) (parent child : Nat) : St :=
  let s :=
    match (findElem s child).bind Elem.domParent with
    | some oldP => updElem s oldP
        (fun e => { e with children := e.children.filter (fun c => c != child) })
    | none => s
  let s := updElem s child (fun e => { e with domParent := some parent })
  updElem s parent (fun e => { e with children := e.children ++ [child] })

/-- `el.remove()`: detach from the parent; a no-op on an already detached
element. -/
def removeElem (s : St) (i : Nat) : St :=
  match (findElem s i).bind Elem.domParent with
  | some p =>
      let s := updElem s p
        (fun e => { e with children := e.children.filter (fun c => c != i) })
      updElem s i (fun e => { e with domParent := none })
  | none => s

/-! ## Observers used by the theorems -/

def domParentOf (s : St) (i : Nat) : Option Nat :=
  (findElem s i).bind Elem.domParent

def activeSubmenuOf (s : St) (i : Nat) : Option Nat :=
  ((findElem s i).bind Elem.ctxMenuData).bind CtxMenuData.activeSubmenu

def clickObjectOf (s : St) (i : Nat) : Option ClickVal :=
  ((findElem s i).bind Elem.ctxMenuItemData).bind CtxMenuItemData.clickObject

def childrenOf (s : St) (i : Nat) : Option (List Nat) :=
  (findElem s i).map Elem.children

def classesOf (s : St) (i : Nat) : Option (List String) :=
  (findElem s i).map Elem.classes

def styleLookupOf (s : St) (i : Nat) (key : String) : Option StyleVal :=
  (findElem s i).bind (fun e => styleLookup e key)

def tagOf (s : St) (i : Nat) : Option String :=
  (findElem s i).map Elem.tag

/-! ## The `options` parameter

`createContextMenu`'s second parameter.  At the `spawnSubmenu` call site
(source line 258) the arguments are shifted, so this position actually
receives the number `x`; property access on a number yields `undefined`. -/

structure PositionObj where
  x : Option Int
  y : Option Int

structure OptionsObj where
  styles : Option (List (String × List (String × String)))
  position : Option PositionObj

inductive OptionsVal where
  | obj (o : OptionsObj)
  | num (n : Int)

/-- `options.styles`: `undefined` when `options` is a number. -/
def OptionsVal.stylesOf : OptionsVal → Option (List (String × List (String × String)))
  | .obj o => o.styles
  | .num _ => none

/-- `options.position`: `undefined` when `options` is a number. -/
def OptionsVal.positionOf : OptionsVal → Option PositionObj
  | .obj o => o.position
  | .num _ => none

/-- JavaScript truthiness of the `options` value. -/
def OptionsVal.truthy : OptionsVal → Bool
  | .obj _ => true
  | .num n => n != 0

/-- JavaScript truthiness of an optional number (`undefined` and `0` falsy). -/
def truthyNum : Option Int → Bool
  | some n => n != 0
  | none => false

/-- JavaScript truthiness of an optional boolean (`undefined` and `false` falsy). -/
def truthyBool : Option Bool → Bool
  | some b => b
  | none => false

/-- `v || null` for a string: `''` is falsy, so it maps to `null`. -/
def orNullStr : Option String → Option String
  | some t => if t = "" then none else some t
  | none => none

/-- `v || null` for a boolean: `false || null` is `null`. -/
def orNullBool : Option Bool → Option Bool
  | some true => some true
  | _ => none

/-- The value assigned to `textContent`: it is a nullable DOMString, so an
`undefined` text coerces to null, which yields the empty string. -/
def textContentValue : Option String → String
  | some t => t
  | none => ""

/-! ## Geometry oracle -/

/-- A `getBoundingClientRect()` result. -/
structure Rect where
  top : Int
  left : Int
  right : Int
  bottom : Int
  width : Int
  height : Int

/-- The viewport rectangle built in `render` (source line 340). -/
structure ViewportRect where
  top : Int
  right : Int
  left : Int
  bottom : Int

/-! ## Operations -/

/-- Source lines 273-283.  BUG kept faithful: when the guard
`options.styles[targetClassName]` passes, the loop iterates
`Object.entries(options.styles)` — the *whole* styles map, assigning each
per-part override object to a style property named after the part — instead
of iterating `options.styles[targetClassName]`. -/
def tryApplyUserStyles (options : OptionsVal) (s : St) (el : Nat)
    (targetClassName : String) : St :=
  if options.truthy then
    match options.stylesOf with
    | some styles =>
        if (styles.find? (fun p => p.1 == targetClassName)).isSome then
          styles.foldl
            (fun s' kv => updElem s' el (fun e => setStyle e kv.1 (.objv kv.2))) s
        else s
    | none => s
  else s

/-- Source lines 170-177: `let enabled;` declares an uninitialized local
(`undefined`), and the following `if (enabled == false)` tests that local —
not `itemObj.enabled`.  In JavaScript `undefined == false` is `false`, so
the else branch always runs and `enabled` is `true` for every row. -/
def closureEnabled (itemObj : MenuItemObj) : Bool :=
  let enabledUndefined : Option Bool := none
  match itemObj, enabledUndefined with
  | _, some false => false
  | _, _ => true

/-- `clearTimeout(submenuTimer)` (source line 267): cancels the scheduled
task; the `submenuTimer` variable keeps the stale handle. -/
def resetHoverTimer (s : St) : St :=
  { s with submenuTimer := s.submenuTimer.map (fun t => { t with canceled := true }) }

/-- Source lines 203-220 (`onMouseEntered`): reset any existing timer, then
start a fresh 600ms hover timer for this row.  The scheduled callback body
is not invoked here; its pending/canceled status is what the state tracks. -/
def onMouseEntered (s : St) (ctxMenuItem : Nat) : St :=
  let s := if s.submenuTimer.isSome then resetHoverTimer s else s
  { s with submenuTimer := some { itemId := ctxMenuItem, canceled := false } }

/-- Source lines 153-271 (`createCtxMenuItem`): a divider entry becomes an
`hr`; anything else becomes a row `div` carrying the `__ctxMenuItem`
expando (with the `x || null` coercions of lines 185-188). -/
def createCtxMenuItem (options : OptionsVal) (ctxMenu : Nat)
    (itemObj : MenuItemObj) (s : St) : St × Nat :=
  if truthyBool itemObj.divider then
    let r := createElement s "hr"
    let s := updElem r.1 r.2 (fun e => addClass e "ctxMenuDivider")
    let s := tryApplyUserStyles options s r.2 "divider"
    (s, r.2)
  else
    let r := createElement s "div"
    let ctxMenuItem := r.2
    let s := updElem r.1 ctxMenuItem
      (fun e => { e with textContent := textContentValue itemObj.text })
    let s := updElem s ctxMenuItem (fun e => setStyle e "userSelect" (.str "none"))
    let s := updElem s ctxMenuItem (fun e =>
      { e with ctxMenuItemData := some {
          parentCtxMenu := ctxMenu,
          clickObject := itemObj.click,
          text := orNullStr itemObj.text,
          enabled := orNullBool itemObj.enabled,
          divider := orNullBool itemObj.divider } })
    let s := updElem s ctxMenuItem (fun e => addClass e "ctxMenuItem")
    let s := tryApplyUserStyles options s ctxMenuItem "ctxMenuItem"
    (s, ctxMenuItem)

/-- Source lines 290-296 (`removeAll`): detach every element listed in
`activeMenus` from the DOM and null `rootMenu`.  Faithful to the source:
the `activeMenus` array itself is left untouched, and `submenuTimer` is not
cleared or canceled. -/
def removeAll (s : St) : St :=
  let s := s.activeMenus.foldl (fun s' m => removeElem s' m) s
  { s with rootMenu := none }

/-- Source lines 72-131 (`createContextMenu`): build the menu `div`, its
`__ctxMenu` expando, the per-entry rows, the optional explicit position;
if `parent == null`, run `removeAll` and register the new menu as
`rootMenu`; finally push onto `activeMenus`. -/
def createContextMenu (menuObject : List MenuItemObj) (options : OptionsVal)
    (parent : JVal) (s : St) : St × Nat :=
  let r := createElement s "div"
  let ctxMenu := r.2
  let s := updElem r.1 ctxMenu (fun e =>
    { e with ctxMenuData := some {
        activeSubmenu := none, parentCtxMenuItem := parent,
        menuObject := menuObject } })
  -- `__debug` is true in the source, so the debug border is always set.
  let s := updElem s ctxMenu (fun e => setStyle e "borderStyle" (.str "solid"))
  let s := updElem s ctxMenu (fun e => setStyle e "position" (.str "absolute"))
  let s := updElem s ctxMenu (fun e => addClass e "ctxMenu")
  let s := tryApplyUserStyles options s ctxMenu "ctxMenu"
  -- createCtxMenuItems(): one row per entry, appended in order.
  let s := menuObject.foldl (fun s' item =>
      let ri := createCtxMenuItem options ctxMenu item s'
      appendChild ri.1 ctxMenu ri.2) s
  let s :=
    match options.positionOf with
    | some pos =>
        let s := if truthyNum pos.x then
            updElem s ctxMenu (fun e =>
              setStyle e "left" (.str (toString (pos.x.getD 0) ++ "px")))
          else s
        if truthyNum pos.y then
          updElem s ctxMenu (fun e =>
            setStyle e "top" (.str (toString (pos.y.getD 0) ++ "px")))
        else s
    | none => s
  let s :=
    match parent with
    | .null => { removeAll s with rootMenu := some ctxMenu }
    | _ => s
  let s := { s with activeMenus := s.activeMenus ++ [ctxMenu] }
  (s, ctxMenu)

/-- Source lines 57-63 (`recursivelyCloseChildren`): depth-first removal of
the open-descendant chain.  Faithful to the source: the removed child's
reference in `__ctxMenu.activeSubmenu` is never nulled, and nothing is
removed from `activeMenus`.  `fuel` bounds the chain length (chains built
by the module are finite since every `activeSubmenu` is a fresh element). -/
def recursivelyCloseChildren : Nat → St → Nat → St
  | 0, s, _ => s
  | fuel + 1, s, ctxMenu =>
      match activeSubmenuOf s ctxMenu with
      | some activeSubmenu =>
          let s := recursivelyCloseChildren fuel s activeSubmenu
          removeElem s activeSubmenu
      | none => s

/-- Source lines 257-261 (`spawnSubmenu`): BUG kept faithful — the call
`createContextMenu(menuObject, x, y, menuObject, options, ctxMenu)` shifts
the arguments of `createContextMenu(menuObject, options, parent)`, so `x`
lands in `options` and `y` lands in `parent` (a number, hence
`parent == null` is false); the trailing arguments are discarded.  The
previous `activeSubmenu`, if any, is overwritten without being closed. -/
def spawnSubmenu (options : OptionsVal) (ctxMenu : Nat)
    (menuObject : List MenuItemObj) (appendElement : Nat) (x y : Int)
    (s : St) : St :=
  let r := createContextMenu menuObject (.num x) (.num y) s
  let newSubmenu := r.2
  let s := updElem r.1 ctxMenu (fun e =>
    { e with ctxMenuData :=
        e.ctxMenuData.map (fun d => { d with activeSubmenu := some newSubmenu }) })
  appendChild s appendElement newSubmenu

/-- The bounds test of the `mousedown` handler and the hover callback
(source lines 32, 211): inclusive on all four edges. -/
def containsPoint (r : Rect) (mx my : Int) : Bool :=
  !(mx < r.left || mx > r.right || my < r.top || my > r.bottom)

/-- Source lines 22-45: the window `mousedown` handler.  The first menu in
`activeMenus` whose bounds contain the pointer gets
`recursivelyCloseChildren` (then the handler returns); otherwise
`removeAll`. -/
def onMousedown (geo : Nat → Rect) (mouseX mouseY : Int) (s : St) : St :=
  match s.activeMenus.find? (fun m => containsPoint (geo m) mouseX mouseY) with
  | some menu => recursivelyCloseChildren s.nextId s menu
  | none => removeAll s

/-- The default `menuObject` parameter of `createContextMenu` (source line
72): `[{ text: '', click: () => { } }]`.  Default parameters substitute for
an `undefined` argument; the anonymous no-op callback is modelled as
function `0`. -/
def defaultMenuObject : List MenuItemObj := [.mk (some "") (some (.fn 0)) none none]

/-- Source lines 226-251 (`onClick`).  Returns the resulting state plus the
id of the function the handler invokes as its final step, if any — the
second component `some f` means callback `f` runs in exactly the returned
state.  Faithful bugs kept: `enabled` comes from `closureEnabled` (always
true); `typeof (itemObj.click === 'object')` is the string `'boolean'`,
which is truthy, so the submenu branch is taken whenever the function
branch is not, making the final `throw` (line 250) unreachable — hence no
run of this handler ever produces the `.error` outcome.  When `click` is
absent, `clickObject` is `undefined`, and `spawnSubmenu(undefined, ...)`
calls `createContextMenu(undefined, ...)`, whose default parameter
substitutes `[{ text: '', click: () => { } }]`: a default one-entry submenu
is spawned. -/
def onClick (options : OptionsVal) (geo : Nat → Rect) (ctxMenu ctxMenuItem : Nat)
    (itemObj : MenuItemObj) (s : St) : Except String (St × Option Nat) :=
  if !(closureEnabled itemObj) then .ok (s, none)
  else
    match itemObj.click with
    | some (.fn f) =>
        let s := if s.submenuTimer.isSome then resetHoverTimer s else s
        let s := removeAll s
        .ok (s, some f)
    | some (.subm menuObject) =>
        let bounds := geo ctxMenuItem
        let s := resetHoverTimer s
        .ok (spawnSubmenu options ctxMenu menuObject ctxMenuItem
              (bounds.left + bounds.width) bounds.top s, none)
    | none =>
        let bounds := geo ctxMenuItem
        let s := resetHoverTimer s
        .ok (spawnSubmenu options ctxMenu defaultMenuObject ctxMenuItem
              (bounds.left + bounds.width) bounds.top s, none)

/-- Source lines 298-307 (`calculateOverflow`). -/
structure Overflow where
  top : Int
  right : Int
  bottom : Int
  left : Int
deriving DecidableEq

def calculateOverflow (rect : Rect) (viewportRect : ViewportRect) : Overflow :=
  { top := max (viewportRect.top - rect.top) 0,
    right := max (rect.right - viewportRect.right) 0,
    bottom := max (rect.bottom - viewportRect.bottom) 0,
    left := max (viewportRect.left - rect.left) 0 }

/-- `cloneNode(true)` for the measurement dummy of `render`: a fresh
detached element copying the node's DOM data (tag, text, style, classes);
expando properties (`__ctxMenu`, `__ctxMenuItem`) are not copied by the
DOM.  The clone is only ever measured through the geometry oracle (by its
id) and then discarded, so its subtree is not materialized in the store. -/
def cloneNode (s : St) (i : Nat) : St × Nat :=
  match findElem s i with
  | none => createElement s "div"
  | some e =>
      let r := createElement s e.tag
      (updElem r.1 r.2 (fun e' =>
        { e' with textContent := e.textContent, style := e.style,
                  classes := e.classes }), r.2)

/-- Source lines 316-372 (`render`): attach an invisible clone, measure it
via the geometry oracle, compute the four overflows against the viewport,
pick a direction with the source's strict-comparison chain, set the real
menu's `top`/`left` (as raw numbers, as the source does) and append it to
`document.body`.  The `parentMenuItemDiv` block of lines 329-337 only
computes unused locals and is omitted. -/
def render (geo : Nat → Rect) (innerWidth innerHeight : Int)
    (contextMenuElement : Nat) (x y : Int) (parentMenuItemDiv : Option Nat)
    (s : St) : St :=
  let _ := parentMenuItemDiv
  let rc := cloneNode s contextMenuElement
  let dummyMenu := rc.2
  let s := updElem rc.1 dummyMenu (fun e => setStyle e "visibility" (.str "hidden"))
  let s := updElem s dummyMenu (fun e => setStyle e "top" (.str (toString y ++ "px")))
  let s := updElem s dummyMenu (fun e => setStyle e "left" (.str (toString x ++ "px")))
  let s := appendChild s bodyId dummyMenu
  let bounds := geo dummyMenu
  let viewportBounds : ViewportRect :=
    { top := 0, right := innerWidth, left := 0, bottom := innerHeight }
  let overflow := calculateOverflow bounds viewportBounds
  let calculatedLeft := bounds.left
  let calculatedTop := bounds.top
  let s := removeElem s dummyMenu
  let tl :=
    if overflow.top < overflow.bottom && overflow.top < overflow.left
        && overflow.top < overflow.right then
      (bounds.top - overflow.top - bounds.height, calculatedLeft)
    else if overflow.right < overflow.bottom && overflow.right < overflow.left then
      (calculatedTop, bounds.left - overflow.right - bounds.width)
    else if overflow.bottom < overflow.left then
      (bounds.top + overflow.bottom, calculatedLeft)
    else
      (calculatedTop, bounds.left + overflow.left)
  let realMenu := contextMenuElement
  let s := updElem s realMenu (fun e => setStyle e "top" (.num tl.1))
  let s := updElem s realMenu (fun e => setStyle e "left" (.num tl.2))
  appendChild s bodyId realMenu

/-! ## Concrete scenarios -/

def emptyOptions : OptionsVal := .obj { styles := none, position := none }

def subEntriesA : List MenuItemObj := [.mk (some "a1") (some (.fn 101)) none none]

def subEntriesB : List MenuItemObj := [.mk (some "b1") (some (.fn 102)) none none]

def itemSubA : MenuItemObj := .mk (some "A") (some (.subm subEntriesA)) none none

def itemSubB : MenuItemObj := .mk (some "B") (some (.subm subEntriesB)) none none

/-- C1 scenario: a root menu with two submenu entries (menu `1`, rows `2`
and `3`), then `spawnSubmenu` on each row in turn. -/
def c1state0 : St := (createContextMenu [itemSubA, itemSubB] emptyOptions .null initState).1

def c1state1 : St := spawnSubmenu emptyOptions 1 subEntriesA 2 100 10 c1state0

def c1state2 : St := spawnSubmenu emptyOptions 1 subEntriesB 3 100 30 c1state1

/-- A geometry oracle answering a degenerate rectangle for every element;
the claims that use it do not depend on geometry. -/
def geoZero : Nat → Rect :=
  fun _ => { top := 0, left := 0, right := 0, bottom := 0, width := 0, height := 0 }

/-- The state the `onClick` handler finished in, if it did not throw. -/
def clickOutcomeState : Except String (St × Option Nat) → Option St
  | .ok (s, _) => some s
  | .error _ => none

/-- The callback the `onClick` handler invoked as its final step, if any. -/
def clickOutcomeInvoked : Except String (St × Option Nat) → Option Nat
  | .ok (_, f) => f
  | .error _ => none

def clickOutcomeIsError : Except String (St × Option Nat) → Bool
  | .error _ => true
  | .ok _ => false

/-- C2 scenario: an Action entry explicitly constructed with
`enabled: false` (menu `1`, row `2`), then a click on its row. -/
def itemDisabled : MenuItemObj := .mk (some "dis") (some (.fn 7)) (some false) none

def c2state0 : St := (createContextMenu [itemDisabled] emptyOptions .null initState).1

def c2res : Except String (St × Option Nat) :=
  onClick emptyOptions geoZero 1 2 itemDisabled c2state0

/-- An enabled Action entry whose callback is function `42`. -/
def itemAction : MenuItemObj := .mk (some "act") (some (.fn 42)) (some true) none

/-- C3 scenario: open a root menu (menu `1`, row `2`), start a hover timer
on the row, then call `removeAll`. -/
def c3state0 : St := (createContextMenu [itemAction] emptyOptions .null initState).1

def c3state1 : St := onMouseEntered c3state0 2

def c3state2 : St := removeAll c3state1

/-- C4 scenario: a 200×100 panel anchored at (1900, 10) in a 1920×1080
viewport.  The geometry oracle reports the tentative rectangle of the
measurement dummy. -/
def c4geo : Nat → Rect :=
  fun _ => { top := 10, left := 1900, right := 2100, bottom := 110,
             width := 200, height := 100 }

def c4state0 : St := (createContextMenu [itemAction] emptyOptions .null initState).1

def c4state1 : St := render c4geo 1920 1080 1 1900 10 none c4state0

/-- C5 scenario: open a root menu with an enabled Action entry (menu `1`,
row `2`), then click the row. -/
def c5state0 : St := (createContextMenu [itemAction] emptyOptions .null initState).1

def c5res : Except String (St × Option Nat) :=
  onClick emptyOptions geoZero 1 2 itemAction c5state0

/-- C6 scenario: open a root menu with one submenu entry (menu `1`, row
`2`), attach it to the page via `render` (the dummy clone takes id `3`),
spawn its submenu (menu `4`, row `5`), then run
`recursivelyCloseChildren` on the root. -/
def c6geo : Nat → Rect :=
  fun _ => { top := 10, left := 10, right := 210, bottom := 110,
             width := 200, height := 100 }

def c6state0 : St := (createContextMenu [itemSubA] emptyOptions .null initState).1

def c6state1 : St := render c6geo 1920 1080 1 10 10 none c6state0

def c6state2 : St := spawnSubmenu emptyOptions 1 subEntriesA 2 210 10 c6state1

def c6state3 : St := recursivelyCloseChildren c6state2.nextId c6state2 1

/-- C7 scenario: an entry with none of `click`, `children` (a `click`
object), or `divider` set. -/
def itemEmptyEntry : MenuItemObj := .mk (some "x") none none none

def c7state : St × Nat := createContextMenu [itemEmptyEntry] emptyOptions .null initState

def c7res : Except String (St × Option Nat) :=
  onClick emptyOptions geoZero 1 2 itemEmptyEntry c7state.1

/-- C8 scenario: a styling configuration with one override (`color: red`)
for the `ctxMenu` part. -/
def c8opts : OptionsVal :=
  .obj { styles := some [("ctxMenu", [("color", "red")])], position := none }

def c8state : St × Nat := createContextMenu [itemAction] c8opts .null initState

/-- C10's invariant: `rootMenu` is either null or an element of the
open-menu registry `activeMenus`. -/
def rootInv (s : St) : Prop :=
  ∀ r, s.rootMenu = some r → r ∈ s.activeMenus

/-! ## Preservation lemmas

The element-store helpers only touch `elems`/`nextId`; the controller
fields `activeMenus`, `rootMenu` and `submenuTimer` pass through them
unchanged. -/

theorem foldl_preserves {α β : Type} (f : St → α → St) (g : St → β)
    (h : ∀ s a, g (f s a) = g s) :
    ∀ (l : List α) (s : St), g (List.foldl f s l) = g s := by
  intro l
  induction l with
  | nil => intro s; rfl
  | cons a t ih => intro s; rw [List.foldl_cons, ih, h]

@[simp] theorem setElem_activeMenus (s : St) (i : Nat) (e : Elem) :
    (setElem s i e).activeMenus = s.activeMenus := rfl

@[simp] theorem setElem_rootMenu (s : St) (i : Nat) (e : Elem) :
    (setElem s i e).rootMenu = s.rootMenu := rfl

@[simp] theorem setElem_submenuTimer (s : St) (i : Nat) (e : Elem) :
    (setElem s i e).submenuTimer = s.submenuTimer := rfl

@[simp] theorem updElem_activeMenus (s : St) (i : Nat) (f : Elem → Elem) :
    (updElem s i f).activeMenus = s.activeMenus := by
  unfold updElem; split <;> rfl

@[simp] theorem updElem_rootMenu (s : St) (i : Nat) (f : Elem → Elem) :
    (updElem s i f).rootMenu = s.rootMenu := by
  unfold updElem; split <;> rfl

@[simp] theorem updElem_submenuTimer (s : St) (i : Nat) (f : Elem → Elem) :
    (updElem s i f).submenuTimer = s.submenuTimer := by
  unfold updElem; split <;> rfl

@[simp] theorem createElement_snd (s : St) (t : String) :
    (createElement s t).2 = s.nextId := rfl

@[simp] theorem createElement_activeMenus (s : St) (t : String) :
    (createElement s t).1.activeMenus = s.activeMenus := rfl

@[simp] theorem createElement_rootMenu (s : St) (t : String) :
    (createElement s t).1.rootMenu = s.rootMenu := rfl

@[simp] theorem createElement_submenuTimer (s : St) (t : String) :
    (createElement s t).1.submenuTimer = s.submenuTimer := rfl

@[simp] theorem appendChild_activeMenus (s : St) (p c : Nat) :
    (appendChild s p c).activeMenus = s.activeMenus := by
  unfold appendChild; split <;> simp

@[simp] theorem appendChild_rootMenu (s : St) (p c : Nat) :
    (appendChild s p c).rootMenu = s.rootMenu := by
  unfold appendChild; split <;> simp

@[simp] theorem appendChild_submenuTimer (s : St) (p c : Nat) :
    (appendChild s p c).submenuTimer = s.submenuTimer := by
  unfold appendChild; split <;> simp

@[simp] theorem removeElem_activeMenus (s : St) (i : Nat) :
    (removeElem s i).activeMenus = s.activeMenus := by
  unfold removeElem; split <;> simp

@[simp] theorem removeElem_rootMenu (s : St) (i : Nat) :
    (removeElem s i).rootMenu = s.rootMenu := by
  unfold removeElem; split <;> simp

@[simp] theorem removeElem_submenuTimer (s : St) (i : Nat) :
    (removeElem s i).submenuTimer = s.submenuTimer := by
  unfold removeElem; split <;> simp

@[simp] theorem cloneNode_activeMenus (s : St) (i : Nat) :
    (cloneNode s i).1.activeMenus = s.activeMenus := by
  unfold cloneNode; split <;> simp

@[simp] theorem cloneNode_rootMenu (s : St) (i : Nat) :
    (cloneNode s i).1.rootMenu = s.rootMenu := by
  unfold cloneNode; split <;> simp

@[simp] theorem cloneNode_submenuTimer (s : St) (i : Nat) :
    (cloneNode s i).1.submenuTimer = s.submenuTimer := by
  unfold cloneNode; split <;> simp

@[simp] theorem tryApplyUserStyles_activeMenus (o : OptionsVal) (s : St)
    (el : Nat) (t : String) :
    (tryApplyUserStyles o s el t).activeMenus = s.activeMenus := by
  unfold tryApplyUserStyles
  split
  · split
    · split
      · exact foldl_preserves _ St.activeMenus (fun s' a => updElem_activeMenus s' el _) _ _
      · rfl
    · rfl
  · rfl

@[simp] theorem tryApplyUserStyles_rootMenu (o : OptionsVal) (s : St)
    (el : Nat) (t : String) :
    (tryApplyUserStyles o s el t).rootMenu = s.rootMenu := by
  unfold tryApplyUserStyles
  split
  · split
    · split
      · exact foldl_preserves _ St.rootMenu (fun s' a => updElem_rootMenu s' el _) _ _
      · rfl
    · rfl
  · rfl

@[simp] theorem tryApplyUserStyles_submenuTimer (o : OptionsVal) (s : St)
    (el : Nat) (t : String) :
    (tryApplyUserStyles o s el t).submenuTimer = s.submenuTimer := by
  unfold tryApplyUserStyles
  split
  · split
    · split
      · exact foldl_preserves _ St.submenuTimer (fun s' a => updElem_submenuTimer s' el _) _ _
      · rfl
    · rfl
  · rfl

@[simp] theorem createCtxMenuItem_activeMenus (o : OptionsVal) (ctx : Nat)
    (itemObj : MenuItemObj) (s : St) :
    (createCtxMenuItem o ctx itemObj s).1.activeMenus = s.activeMenus := by
  unfold createCtxMenuItem; split <;> simp

@[simp] theorem createCtxMenuItem_rootMenu (o : OptionsVal) (ctx : Nat)
    (itemObj : MenuItemObj) (s : St) :
    (createCtxMenuItem o ctx itemObj s).1.rootMenu = s.rootMenu := by
  unfold createCtxMenuItem; split <;> simp

@[simp] theorem createCtxMenuItem_submenuTimer (o : OptionsVal) (ctx : Nat)
    (itemObj : MenuItemObj) (s : St) :
    (createCtxMenuItem o ctx itemObj s).1.submenuTimer = s.submenuTimer := by
  unfold createCtxMenuItem; split <;> simp

@[simp] theorem removeAll_activeMenus (s : St) :
    (removeAll s).activeMenus = s.activeMenus := by
  unfold removeAll
  exact foldl_preserves _ St.activeMenus (fun s' a => removeElem_activeMenus s' a) _ _

@[simp] theorem removeAll_submenuTimer (s : St) :
    (removeAll s).submenuTimer = s.submenuTimer := by
  unfold removeAll
  exact foldl_preserves _ St.submenuTimer (fun s' a => removeElem_submenuTimer s' a) _ _

@[simp] theorem removeAll_rootMenu (s : St) :
    (removeAll s).rootMenu = none := rfl

@[simp] theorem recursivelyCloseChildren_activeMenus :
    ∀ (fuel : Nat) (s : St) (i : Nat),
      (recursivelyCloseChildren fuel s i).activeMenus = s.activeMenus := by
  intro fuel
  induction fuel with
  | zero => intro s i; rfl
  | succ n ih =>
      intro s i
      unfold recursivelyCloseChildren
      split
      · rw [removeElem_activeMenus, ih]
      · rfl

@[simp] theorem recursivelyCloseChildren_rootMenu :
    ∀ (fuel : Nat) (s : St) (i : Nat),
      (recursivelyCloseChildren fuel s i).rootMenu = s.rootMenu := by
  intro fuel
  induction fuel with
  | zero => intro s i; rfl
  | succ n ih =>
      intro s i
      unfold recursivelyCloseChildren
      split
      · rw [removeElem_rootMenu, ih]
      · rfl

@[simp] theorem recursivelyCloseChildren_submenuTimer :
    ∀ (fuel : Nat) (s : St) (i : Nat),
      (recursivelyCloseChildren fuel s i).submenuTimer = s.submenuTimer := by
  intro fuel
  induction fuel with
  | zero => intro s i; rfl
  | succ n ih =>
      intro s i
      unfold recursivelyCloseChildren
      split
      · rw [removeElem_submenuTimer, ih]
      · rfl

/-- The per-entry row construction loop of `createContextMenu`. -/
theorem itemsFold_activeMenus (o : OptionsVal) (ctx : Nat)
    (mo : List MenuItemObj) (s : St) :
    (List.foldl (fun s' item =>
        let ri := createCtxMenuItem o ctx item s'
        appendChild ri.1 ctx ri.2) s mo).activeMenus = s.activeMenus := by
  exact foldl_preserves _ St.activeMenus (fun s' a => by simp) mo s

theorem itemsFold_rootMenu (o : OptionsVal) (ctx : Nat)
    (mo : List MenuItemObj) (s : St) :
    (List.foldl (fun s' item =>
        let ri := createCtxMenuItem o ctx item s'
        appendChild ri.1 ctx ri.2) s mo).rootMenu = s.rootMenu := by
  exact foldl_preserves _ St.rootMenu (fun s' a => by simp) mo s

theorem createContextMenu_snd (mo : List MenuItemObj) (o : OptionsVal)
    (p : JVal) (s : St) : (createContextMenu mo o p s).2 = s.nextId := rfl

theorem createContextMenu_activeMenus (mo : List MenuItemObj) (o : OptionsVal)
    (p : JVal) (s : St) :
    (createContextMenu mo o p s).1.activeMenus = s.activeMenus ++ [s.nextId] := by
  unfold createContextMenu
  simp only
  repeat' split
  all_goals simp [itemsFold_activeMenus]

theorem createContextMenu_rootMenu (mo : List MenuItemObj) (o : OptionsVal)
    (p : JVal) (s : St) :
    (createContextMenu mo o p s).1.rootMenu =
      (match p with | .null => some s.nextId | _ => s.rootMenu) := by
  unfold createContextMenu
  simp only
  repeat' split
  all_goals simp [itemsFold_rootMenu]

/-! ## The claims -/

set_option maxRecDepth 100000 in
/-- C1: the claim fails on the code.  At the failing input — a root menu
(node 1) with two submenu rows (2 and 3), `spawnSubmenu` on row 2 (creating
submenu 4) and then on row 3 (creating submenu 6) — the second spawn merely
overwrites `activeSubmenu` (source line 259): node 1 ends with
`activeSubmenu = 6` while submenu 4 is still registered and still attached
under row 2.  The registry `[1, 4, 6]` is not a single `activeChild` chain
from the root, and node 1 has two simultaneously attached submenus, which
also contradicts the source's own comment "Each submenu can have only one
child submenu rendered at once" (line 83). -/
theorem c1_spawnSubmenu_overwrites_activeSubmenu_without_closing :
    activeSubmenuOf c1state2 1 = some 6 ∧
    c1state2.activeMenus = [1, 4, 6] ∧
    domParentOf c1state2 4 = some 2 ∧
    domParentOf c1state2 6 = some 3 := ⟨rfl, rfl, rfl, rfl⟩

set_option maxRecDepth 100000 in
/-- C2: the claim fails on the code.  For an entry constructed with
`enabled: false`, the row's click handler still runs the Action path:
`let enabled; if (enabled == false) ...` (source lines 170-177) tests the
uninitialized local instead of `itemObj.enabled`, and `undefined == false`
is false, so `enabled` is always true.  Clicking the row invokes callback 7
and mutates the controller state (`rootMenu` goes from `some 1` to
`none`), contradicting the claimed no-op. -/
theorem c2_disabled_entry_click_invokes_callback :
    itemDisabled.enabled = some false ∧
    closureEnabled itemDisabled = true ∧
    clickOutcomeInvoked c2res = some 7 ∧
    c2state0.rootMenu = some 1 ∧
    (clickOutcomeState c2res).map St.rootMenu = some none :=
  ⟨rfl, rfl, rfl, rfl, rfl⟩

set_option maxRecDepth 100000 in
/-- C3: the claim fails on the code.  With one open menu (registry `[1]`)
and a pending hover timer on row 2, `removeAll` (the source's `closeAll`,
lines 290-296) detaches the menus and nulls `rootMenu` but never empties
the `activeMenus` array and never cancels `submenuTimer`: afterwards the
registry still reads `[1]` and the timer is still pending
(`canceled = false`). -/
theorem c3_removeAll_leaves_registry_and_timer :
    c3state1.activeMenus = [1] ∧
    c3state1.submenuTimer = some { itemId := 2, canceled := false } ∧
    c3state2.activeMenus = [1] ∧
    c3state2.submenuTimer = some { itemId := 2, canceled := false } ∧
    c3state2.rootMenu = none := ⟨rfl, rfl, rfl, rfl, rfl⟩

set_option maxRecDepth 100000 in
/-- C4: the claim fails on the code.  For a 200×100 panel at anchor
(1900, 10) in a 1920×1080 viewport the overflows are
top 0 / right 180 / bottom 0 / left 0; the strict-comparison chain of
`render` (source lines 350-362) skips the top branch (0 < 0 fails), skips
the right branch (180 < 0 fails), skips the bottom branch (0 < 0 fails)
and lands in the left branch, adding the zero left overflow.  The panel is
left at `left = 1900 > 1920 − 200`: no horizontal flip, the 180px right
overflow survives.  `top` does remain 10. -/
theorem c4_placement_keeps_right_overflow :
    calculateOverflow (c4geo 3)
        { top := 0, right := 1920, left := 0, bottom := 1080 }
      = { top := 0, right := 180, bottom := 0, left := 0 } ∧
    styleLookupOf c4state1 1 "left" = some (.num 1900) ∧
    styleLookupOf c4state1 1 "top" = some (.num 10) ∧
    ¬((1900 : Int) ≤ 1920 - 200) := ⟨rfl, rfl, rfl, by decide⟩

set_option maxRecDepth 100000 in
/-- C5: the claim fails on the code.  Clicking an enabled Action entry does
run `removeAll` before invoking the callback (source lines 235-236), and
`rootMenu` is already `none` when callback 42 executes — but the open-menu
registry is *not* empty at that moment: `removeAll` never clears the
`activeMenus` array, so the callback runs with the registry still `[1]`. -/
theorem c5_callback_runs_with_nonempty_registry :
    clickOutcomeInvoked c5res = some 42 ∧
    (clickOutcomeState c5res).map St.rootMenu = some none ∧
    (clickOutcomeState c5res).map St.activeMenus = some [1] := ⟨rfl, rfl, rfl⟩

set_option maxRecDepth 100000 in
/-- C6: the claim fails on the code.  With root menu 1 attached to the body
and an open submenu 4 (`activeSubmenu = 4`), `recursivelyCloseChildren 1`
(source lines 57-63) detaches submenu 4 and leaves node 1 attached — but it
never clears the reference: `activeSubmenu` still points at the detached
child 4 on return, where the claim requires it to be unset. -/
theorem c6_closeDescendants_leaves_activeChild_set :
    activeSubmenuOf c6state2 1 = some 4 ∧
    domParentOf c6state3 1 = some 0 ∧
    domParentOf c6state3 4 = none ∧
    activeSubmenuOf c6state3 1 = some 4 := ⟨rfl, rfl, rfl, rfl⟩

set_option maxRecDepth 100000 in
/-- C7: the claim fails on the code.  An entry with none of `click`,
children, or `divider` set is not rejected: `createCtxMenuItem` (source
lines 153-196) happily builds and appends an interactive row whose
`clickObject` is null — construction raises nothing descriptive or
otherwise.  The only related `throw` (line 250) sits behind
`if (typeof (itemObj.click === 'object'))`, which is the truthy string
`'boolean'`, so it is unreachable: clicking the row raises nothing either —
`spawnSubmenu(undefined, ...)` lets `createContextMenu`'s default parameter
substitute `[{ text: '', click: () => { } }]`, silently spawning a default
one-entry submenu (node 3, registered and linked as the row's menu's
`activeSubmenu`). -/
theorem c7_entry_without_action_children_divider_constructs_row :
    childrenOf c7state.1 1 = some [2] ∧
    tagOf c7state.1 2 = some "div" ∧
    classesOf c7state.1 2 = some ["ctxMenuItem"] ∧
    clickObjectOf c7state.1 2 = none ∧
    clickOutcomeIsError c7res = false ∧
    (clickOutcomeState c7res).map St.activeMenus = some [1, 3] ∧
    (clickOutcomeState c7res).bind (fun s => activeSubmenuOf s 1) = some 3 :=
  ⟨rfl, rfl, rfl, rfl, rfl, rfl, rfl⟩

set_option maxRecDepth 100000 in
/-- C8: the claim fails on the code.  With the configuration
`styles = { ctxMenu: { color: red } }`, the panel's guard passes, but the
loop of `tryApplyUserStyles` (source line 277) iterates
`Object.entries(options.styles)` — the whole part map — instead of the
part's overrides: the panel ends with a bogus style entry `ctxMenu` holding
the override *object* and no `color: red` at all.  (A part with no
configured overrides, like the row here, does receive nothing — that half
of the claim holds.) -/
theorem c8_user_styles_not_applied_verbatim :
    styleLookupOf c8state.1 1 "color" = none ∧
    styleLookupOf c8state.1 1 "ctxMenu" = some (.objv [("color", "red")]) ∧
    styleLookupOf c8state.1 2 "color" = none := ⟨rfl, rfl, rfl⟩

/-- C9: confirmed.  `render` only creates, styles, attaches and detaches
elements; for every input and every starting state the controller fields —
the open-menu registry `activeMenus`, the root reference `rootMenu` and the
hover-timer slot `submenuTimer` — are unchanged after the call. -/
theorem c9_render_preserves_controller_state (geo : Nat → Rect)
    (iw ih : Int) (el : Nat) (x y : Int) (pmid : Option Nat) (s : St) :
    (render geo iw ih el x y pmid s).activeMenus = s.activeMenus ∧
    (render geo iw ih el x y pmid s).rootMenu = s.rootMenu ∧
    (render geo iw ih el x y pmid s).submenuTimer = s.submenuTimer := by
  refine ⟨?_, ?_, ?_⟩ <;> simp [render]

/-- C10: confirmed.  The invariant "`rootMenu` is null or an element of
`activeMenus`" holds in the initial state and is preserved by
`createContextMenu` (any parent, null or not), by `removeAll`, and by the
window `mousedown` (outside-click) handler. -/
theorem c10_rootMenu_in_activeMenus_invariant :
    rootInv initState ∧
    (∀ (mo : List MenuItemObj) (o : OptionsVal) (p : JVal) (s : St),
      rootInv s → rootInv (createContextMenu mo o p s).1) ∧
    (∀ s : St, rootInv s → rootInv (removeAll s)) ∧
    (∀ (geo : Nat → Rect) (mx my : Int) (s : St),
      rootInv s → rootInv (onMousedown geo mx my s)) := by
  refine ⟨?_, ?_, ?_, ?_⟩
  · intro r h
    exact Option.noConfusion h
  · intro mo o p s hs r hr
    rw [createContextMenu_rootMenu] at hr
    rw [createContextMenu_activeMenus]
    cases p with
    | null =>
        injection hr with hr
        subst hr
        simp
    | num n => exact List.mem_append_left _ (hs r hr)
    | elemRef i => exact List.mem_append_left _ (hs r hr)
  · intro s hs r hr
    rw [removeAll_rootMenu] at hr
    exact Option.noConfusion hr
  · intro geo mx my s hs r hr
    revert hr
    unfold onMousedown
    split
    · intro hr
      rw [recursivelyCloseChildren_rootMenu] at hr
      rw [recursivelyCloseChildren_activeMenus]
      exact hs r hr
    · intro hr
      rw [removeAll_rootMenu] at hr
      exact Option.noConfusion hr

/-- Witness for C10: the preservation theorem applied at a concrete input,
with its hypothesis discharged explicitly. -/
theorem c10_rootMenu_in_activeMenus_invariant_witness :
    rootInv (createContextMenu [itemAction] emptyOptions .null initState).1 :=
  c10_rootMenu_in_activeMenus_invariant.2.1 [itemAction] emptyOptions .null
    initState (fun r h => Option.noConfusion h)

end CtxMenus
